import Mathlib

/-!
Shallow embedding of the datev-mcp credentialed query gateway.

The repository contains three near-duplicate adapter classes plus two
connection-test helpers.  Each is embedded in its own namespace:

* `V1` — `src/AzurePostgreSQLMCP.py` (minimal read-only variant)
* `V2` — `src/AzurePostgresMCP.py` (improved read-only variant: connect
  timeouts, structured error envelopes, password masking)
* `V3` — `src/azure_postgres_mcp.py` (read/write variant with
  `exec_and_commit`)
* `DbUtils` — `src/db_utils.py` / `src/main.py` (connection-test helper)

External effects (the psycopg driver, the identity provider, the Azure
management client) are modelled as oracles passed explicitly: the identity
provider is a sequence of tokens indexed by the number of `get_token`
calls made so far, the query engine is a function from the statement
string to an outcome, and the management client is a single outcome value
paired with a count of control-plane calls actually performed.
-/

deriving instance DecidableEq for Except

namespace DatevMcp

/-- Python exception values raised or caught by the gateway code. Each
constructor carries the message text used by the source where relevant. -/
inductive PyError where
  | environmentError (name : String)
  | valueError (msg : String)
  | notImplementedError (msg : String)
  | attributeError (name : String)
  | operationalError (msg : String)
  | databaseError (msg : String)
  deriving Repr, DecidableEq

/-- Message text of an exception, as `str(e)` would render it for the
messages the gateway embeds into its own log/error strings. -/
def errMsg : PyError → String
  | .environmentError n => "Environment variable " ++ n ++ " not found."
  | .valueError m => m
  | .notImplementedError m => m
  | .attributeError n => n
  | .operationalError m => m
  | .databaseError m => m

/-- Model of `AzurePostgreSQLMCP.get_environ_variable` (identical in all
three variants): return the environment value, or raise
`EnvironmentError` when the variable is absent.  An empty string is a
present value and is returned unchanged. -/
def get_environ_variable (value : Option String) (name : String) : Except PyError String :=
  match value with
  | none => .error (.environmentError ("Environment variable " ++ name ++ " not found."))
  | some v => .ok v

/-- Python truthiness of an `Optional[str]`: `None` and `""` are falsy,
every other string is truthy. -/
def pyTruthy : Option String → Bool
  | none => false
  | some s => !(s == "")

/-- Uppercase hexadecimal digit, for percent-encoding. -/
def hexDigit (n : Nat) : Char :=
  if n < 10 then Char.ofNat (48 + n) else Char.ofNat (55 + n)

/-- UTF-8 byte sequence of a character (as numbers), computed from the
code point. -/
def utf8Bytes (c : Char) : List Nat :=
  let n := c.toNat
  if n < 128 then [n]
  else if n < 2048 then [192 + n / 64, 128 + n % 64]
  else if n < 65536 then [224 + n / 4096, 128 + (n / 64) % 64, 128 + n % 64]
  else [240 + n / 262144, 128 + (n / 4096) % 64, 128 + (n / 64) % 64, 128 + n % 64]

/-- Characters `urllib.parse.quote` leaves unencoded with its default
`safe='/'`: ASCII alphanumerics, `_ . - ~` and `/`. -/
def quoteSafe (c : Char) : Bool :=
  c.isAlphanum || c == '_' || c == '.' || c == '-' || c == '~' || c == '/'

/-- Concatenation of the images of a character-to-list function, used to
build encoded strings. -/
def expand (f : Char → List Char) : List Char → List Char
  | [] => []
  | c :: cs => f c ++ expand f cs

/-- Model of `urllib.parse.quote(s)` as applied to `PGUSER`: safe
characters pass through, every other character is replaced by the
percent-encoding of its UTF-8 bytes with uppercase hex digits. -/
def pyQuote (s : String) : String :=
  ⟨expand (fun c =>
    if quoteSafe c then [c]
    else (utf8Bytes c).foldr (fun b acc => '%' :: hexDigit (b / 16) :: hexDigit (b % 16) :: acc) []) s.data⟩

/-- Values appearing in rows fetched from the database, as far as the
gateway's `str(row)` serialization distinguishes them. -/
inductive PyVal where
  | none
  | bool (b : Bool)
  | int (n : Int)
  | str (s : String)
  deriving Repr, DecidableEq

/-- Python `repr` of a row element as it appears inside `str(row)` for a
fetched tuple.  Strings are rendered in single quotes (the common case;
quote switching and escaping for strings that themselves contain quotes
is not needed by any statement here). -/
def pyRepr : PyVal → String
  | .none => "None"
  | .bool true => "True"
  | .bool false => "False"
  | .int n => toString n
  | .str s => "'" ++ s ++ "'"

/-- Python `str(row)` for a fetched row (a tuple): parenthesized,
comma-separated `repr`s, with the trailing comma of a 1-tuple. -/
def pyStrTuple (row : List PyVal) : String :=
  match row with
  | [v] => "(" ++ pyRepr v ++ ",)"
  | _ => "(" ++ String.intercalate ", " (row.map pyRepr) ++ ")"

/-- Python `sep.join(parts)`: the parts concatenated with `sep` between
consecutive parts. -/
def joinSep (sep : String) : List String → String
  | [] => ""
  | [x] => x
  | x :: xs => x ++ sep ++ joinSep sep xs

/-- Python `str(colnames)` for the list of column-name strings taken from
`cur.description`. -/
def pyStrListStr (l : List String) : String :=
  "[" ++ String.intercalate ", " (l.map fun s => "'" ++ s ++ "'") ++ "]"

/-- JSON string escaping for the payload strings the gateway serializes
(backslash and double quote; no payload here contains control
characters). -/
def jsonEscapeChar (c : Char) : List Char :=
  if c == '"' then ['\\', '"'] else if c == '\\' then ['\\', '\\'] else [c]

/-- Escape a string for embedding in a JSON string literal. -/
def jsonEscape (s : String) : String :=
  ⟨expand jsonEscapeChar s.data⟩

/-- A JSON string literal. -/
def jsonStr (s : String) : String :=
  "\"" ++ jsonEscape s ++ "\""

/-- Model of `json.dumps` on a dict of string keys and string values, in
insertion order, with Python's default separators. -/
def jsonDumpsObj (fields : List (String × String)) : String :=
  "\x7b" ++ String.intercalate ", " (fields.map fun kv => jsonStr kv.1 ++ ": " ++ jsonStr kv.2) ++ "\x7d"

/-- Process environment as read by the gateway at construction time. -/
structure Env where
  azureUseAad : Option String
  pghost : Option String
  pguser : Option String
  pgpassword : Option String
  azureSubscriptionId : Option String
  azureResourceGroup : Option String
  deriving Repr, DecidableEq

/-- Identity provider oracle: `tokenAt n` is the bearer token the
provider would issue on the `n`-th `get_token` call (counting from 0). -/
structure TokenProvider where
  tokenAt : Nat → String

/-- Materialized result of a successful cursor execution: the column
names from `cur.description` and the fetched rows in the order the
engine returned them. -/
structure QueryResult where
  colnames : List String
  rows : List (List PyVal)
  deriving Repr, DecidableEq

/-- A call to `psycopg.connect`: the conninfo string and the
`connect_timeout` keyword argument when one is passed. -/
structure ConnectCall where
  conninfo : String
  connect_timeout : Option Nat
  deriving Repr, DecidableEq

/-- Truncation of the host at its first `.`:
`dbhost.split(".", 1)[0] if "." in dbhost else dbhost`. -/
def serverNameOf (dbhost : String) : String :=
  ⟨dbhost.data.takeWhile (fun c => !(c == '.'))⟩

/-- Whether an `Except` outcome is a success. -/
def isOkE {α : Type} : Except PyError α → Bool
  | .ok _ => true
  | .error _ => false

namespace V1

/-!
Embedding of `src/AzurePostgreSQLMCP.py` (class `AzurePostgreSQLMCP`,
minimal read-only variant).
-/

/-- Attributes set on the instance by `init` (lines 53-71).  `hasClient`
records whether `self.postgresql_client` was assigned (it is assigned
only inside the `if self.aad_in_use == "True"` block); `tokenFetches`
counts the `credential.get_token` calls performed so far. -/
structure State where
  aad_in_use : Option String
  dbhost : String
  dbuser : String
  subscription_id : Option String
  resource_group_name : Option String
  server_name : Option String
  hasClient : Bool
  password : String
  tokenFetches : Nat
  deriving Repr, DecidableEq

/-- `get_password` (lines 81-88): in AAD mode fetch a fresh token from
the identity provider (one `get_token` call), otherwise read `PGPASSWORD`
from the environment (raising if absent; an empty string is returned
as-is). Returns the credential together with the updated fetch count. -/
def get_password (aad_in_use : Option String) (pgpassword : Option String)
    (prov : TokenProvider) (fetched : Nat) : Except PyError (String × Nat) :=
  if aad_in_use = some "True" then
    .ok (prov.tokenAt fetched, fetched + 1)
  else
    (get_environ_variable pgpassword "PGPASSWORD").map fun p => (p, fetched)

/-- `init` (lines 53-71): read `AZURE_USE_AAD`, `PGHOST`, `PGUSER`
(percent-encoded); in AAD mode additionally read the subscription and
resource group, derive the server name, and construct the credential and
management client; finally store `self.password = self.get_password()`.
The credential is resolved exactly once, here. -/
def init (env : Env) (prov : TokenProvider) : Except PyError State :=
  match get_environ_variable env.pghost "PGHOST" with
  | .error e => .error e
  | .ok dbhost =>
    match get_environ_variable env.pguser "PGUSER" with
    | .error e => .error e
    | .ok user_raw =>
      let dbuser := pyQuote user_raw
      let aad := env.azureUseAad
      if aad = some "True" then
        match get_environ_variable env.azureSubscriptionId "AZURE_SUBSCRIPTION_ID" with
        | .error e => .error e
        | .ok sub =>
          match get_environ_variable env.azureResourceGroup "AZURE_RESOURCE_GROUP" with
          | .error e => .error e
          | .ok rg =>
            match get_password aad env.pgpassword prov 0 with
            | .error e => .error e
            | .ok (pw, n) =>
              .ok ⟨aad, dbhost, dbuser, some sub, some rg, some (serverNameOf dbhost), true, pw, n⟩
      else
        match get_password aad env.pgpassword prov 0 with
        | .error e => .error e
        | .ok (pw, n) => .ok ⟨aad, dbhost, dbuser, none, none, none, false, pw, n⟩

/-- `get_connection_uri` (lines 127-129): the conninfo string for the
per-request connections of `get_schemas` and `query_data`, embedding the
stored `self.password`.  It is a pure function of the stored state: no
identity-provider call occurs here. -/
def get_connection_uri (st : State) (dbname : String) : String :=
  "host=" ++ st.dbhost ++ " dbname=" ++ dbname ++ " user=" ++ st.dbuser ++
    " password=" ++ st.password

/-- Conninfo string built inside `get_databases_internal` (lines
100-101): the database name is the literal `'postgres'`. -/
def databasesConnStr (st : State) : String :=
  "host=" ++ st.dbhost ++ " user=" ++ st.dbuser ++ " dbname='postgres' password=" ++ st.password

/-- The `psycopg.connect` call of `get_databases_internal` (line 100):
no `connect_timeout` keyword is passed. -/
def databasesConnectCall (st : State) : ConnectCall :=
  ⟨databasesConnStr st, none⟩

/-- The `psycopg.connect` call of `get_schemas` (line 134): no
`connect_timeout` keyword is passed. -/
def schemasConnectCall (st : State) (database : String) : ConnectCall :=
  ⟨get_connection_uri st database, none⟩

/-- Result value of `get_databases_internal` (lines 97-117) as a function
of the connect-and-execute outcome: on success a JSON object whose
`rows` value is the concatenation (`"".join`) of the `str(row)` of each
fetched row; on any exception the function logs and returns `""`. -/
def get_databases_internal (outcome : Except PyError QueryResult) : String :=
  match outcome with
  | .ok r =>
      jsonDumpsObj [("columns", pyStrListStr r.colnames),
                    ("rows", joinSep "" (r.rows.map pyStrTuple))]
  | .error _ => ""

/-- `get_server_config` (lines 170-199).  The guard is `if
self.aad_in_use:` — Python truthiness, not equality with `"True"`.  When
the guard passes but `init` never assigned `self.postgresql_client`
(which happens for every set value other than `"True"`), the attribute
access raises `AttributeError` before any management call; the `except`
block re-raises it.  The management client is the oracle `mgmt` (its
serialized payload on success); the second component counts control-plane
calls performed. -/
def get_server_config (st : State) (mgmt : Except PyError String) :
    (Except PyError String) × Nat :=
  if pyTruthy st.aad_in_use then
    if st.hasClient then
      match mgmt with
      | .ok payload => (.ok payload, 1)
      | .error e => (.error e, 1)
    else
      (.error (.attributeError "postgresql_client"), 0)
  else
    (.error (.notImplementedError "This tool is available only with Microsoft EntraID"), 0)

end V1

namespace V2

/-!
Embedding of `src/AzurePostgresMCP.py` (class `AzurePostgreSQLMCP`,
improved read-only variant).
-/

/-- Attributes set by `__init__` (lines 24-67).  `aad_in_use` is read
with default `"False"` (line 28), so it is always a string. -/
structure State where
  aad_in_use : String
  dbhost : String
  dbuser : String
  subscription_id : Option String
  resource_group_name : Option String
  server_name : Option String
  hasClient : Bool
  password : String
  tokenFetches : Nat
  deriving Repr, DecidableEq

/-- `get_password` (lines 77-95): in AAD mode fetch a fresh token;
otherwise read `PGPASSWORD` and raise `ValueError("PGPASSWORD is
empty")` when it is the empty string. -/
def get_password (aad_in_use : String) (pgpassword : Option String)
    (prov : TokenProvider) (fetched : Nat) : Except PyError (String × Nat) :=
  if aad_in_use = "True" then
    .ok (prov.tokenAt fetched, fetched + 1)
  else do
    let p ← get_environ_variable pgpassword "PGPASSWORD"
    if p = "" then .error (.valueError "PGPASSWORD is empty")
    else .ok (p, fetched)

/-- `__init__` (lines 24-67): like `V1.init` but `AZURE_USE_AAD`
defaults to `"False"` and the password is validated as non-empty. -/
def init (env : Env) (prov : TokenProvider) : Except PyError State :=
  let aad := env.azureUseAad.getD "False"
  match get_environ_variable env.pghost "PGHOST" with
  | .error e => .error e
  | .ok dbhost =>
    match get_environ_variable env.pguser "PGUSER" with
    | .error e => .error e
    | .ok user_raw =>
      let dbuser := pyQuote user_raw
      if aad = "True" then
        match get_environ_variable env.azureSubscriptionId "AZURE_SUBSCRIPTION_ID" with
        | .error e => .error e
        | .ok sub =>
          match get_environ_variable env.azureResourceGroup "AZURE_RESOURCE_GROUP" with
          | .error e => .error e
          | .ok rg =>
            match get_password aad env.pgpassword prov 0 with
            | .error e => .error e
            | .ok (pw, n) =>
              .ok ⟨aad, dbhost, dbuser, some sub, some rg, some (serverNameOf dbhost), true, pw, n⟩
      else
        match get_password aad env.pgpassword prov 0 with
        | .error e => .error e
        | .ok (pw, n) => .ok ⟨aad, dbhost, dbuser, none, none, none, false, pw, n⟩

/-- `get_connection_uri` (lines 151-153): identical to `V1`. -/
def get_connection_uri (st : State) (dbname : String) : String :=
  "host=" ++ st.dbhost ++ " dbname=" ++ dbname ++ " user=" ++ st.dbuser ++
    " password=" ++ st.password

/-- Conninfo string of `get_databases_internal` (line 106): the database
name is the literal `'postgres'`. -/
def databasesConnStr (st : State) : String :=
  "host=" ++ st.dbhost ++ " user=" ++ st.dbuser ++ " dbname='postgres' password=" ++ st.password

/-- The `psycopg.connect` call of `get_databases_internal` (line 113):
`connect_timeout=15` is passed. -/
def databasesConnectCall (st : State) : ConnectCall :=
  ⟨databasesConnStr st, some 15⟩

/-- The `psycopg.connect` call of `get_schemas` (line 159):
`connect_timeout=15` is passed. -/
def schemasConnectCall (st : State) (database : String) : ConnectCall :=
  ⟨get_connection_uri st database, some 15⟩

/-- The `psycopg.connect` call of `query_data` (line 187):
`connect_timeout=15` is passed. -/
def queryConnectCall (st : State) (dbname : String) : ConnectCall :=
  ⟨get_connection_uri st dbname, some 15⟩

/-- `get_databases_internal` (lines 104-141) as a function of the
connect-and-execute outcome: success serializes `{columns, rows}`; a
`psycopg.OperationalError` is converted to a
`{"error": ..., "type": "connection_error"}` envelope, any other
exception to a `{"error": ..., "type": "unexpected_error"}` envelope. -/
def get_databases_internal (outcome : Except PyError QueryResult) : String :=
  match outcome with
  | .ok r =>
      jsonDumpsObj [("columns", pyStrListStr r.colnames),
                    ("rows", joinSep "" (r.rows.map pyStrTuple))]
  | .error (.operationalError m) =>
      jsonDumpsObj [("error", "Database connection failed: " ++ m),
                    ("type", "connection_error")]
  | .error e =>
      jsonDumpsObj [("error", "Unexpected database error: " ++ errMsg e),
                    ("type", "unexpected_error")]

/-- `get_schemas` (lines 155-181): on any exception the tool returns the
`{"error": ...}` envelope built from the caught exception. -/
def get_schemas (database : String) (outcome : Except PyError QueryResult) : String :=
  match outcome with
  | .ok r =>
      jsonDumpsObj [("columns", pyStrListStr r.colnames),
                    ("rows", joinSep "" (r.rows.map pyStrTuple))]
  | .error e =>
      jsonDumpsObj [("error", "Failed to get schemas for " ++ database ++ ": " ++ errMsg e)]

/-- `query_data` (lines 183-206): success joins the `str(row)`s with
`","`; on any exception the tool returns the `{"error": ...}` envelope. -/
def query_data (dbname : String) (outcome : Except PyError QueryResult) : String :=
  match outcome with
  | .ok r =>
      jsonDumpsObj [("columns", pyStrListStr r.colnames),
                    ("rows", joinSep "," (r.rows.map pyStrTuple))]
  | .error e =>
      jsonDumpsObj [("error", "Query failed on " ++ dbname ++ ": " ++ errMsg e)]

/-- `get_server_config` (lines 208-243): the guard is the string
comparison `self.aad_in_use != "True"`, raising `NotImplementedError`
before anything else; otherwise one management call is performed and its
failure is re-raised. -/
def get_server_config (st : State) (mgmt : Except PyError String) :
    (Except PyError String) × Nat :=
  if st.aad_in_use ≠ "True" then
    (.error (.notImplementedError "This tool is available only with Microsoft EntraID"), 0)
  else
    match mgmt with
    | .ok payload => (.ok payload, 1)
    | .error e => (.error e, 1)

/-- `get_server_parameter` (lines 245-268): same guard as
`get_server_config`. -/
def get_server_parameter (st : State) (mgmt : Except PyError String) :
    (Except PyError String) × Nat :=
  if st.aad_in_use ≠ "True" then
    (.error (.notImplementedError "This tool is available only with Microsoft EntraID"), 0)
  else
    match mgmt with
    | .ok payload => (.ok payload, 1)
    | .error e => (.error e, 1)

end V2

namespace V3

/-!
Embedding of `src/azure_postgres_mcp.py` (class `AzurePostgreSQLMCP`,
read/write variant).  `init` (lines 46-88) and `get_password` (lines
101-119) behave exactly as in `V1` (the `try/except` blocks only log and
re-raise), so the `V1` state and constructors model this variant's
initialization as well; the definitions below model the members whose
behavior the claims depend on.
-/

/-- Conninfo string of `get_databases_internal` (line 136): the database
name is the literal `'postgres'`. -/
def databasesConnStr (st : V1.State) : String :=
  "host=" ++ st.dbhost ++ " user=" ++ st.dbuser ++ " dbname='postgres' password=" ++ st.password

/-- The `psycopg.connect` call of `get_databases_internal` (line 139):
no `connect_timeout` keyword is passed. -/
def databasesConnectCall (st : V1.State) : ConnectCall :=
  ⟨databasesConnStr st, none⟩

/-- `query_data` (lines 217-246).  The engine oracle maps the database
name and the statement string to an outcome; the source passes the
caller's statement `s` to `cur.execute` unchanged and, on success, joins
the `str(row)`s with `","` in fetch order.  On any exception it logs and
returns `""`. -/
def query_data (engine : String → String → Except PyError QueryResult)
    (dbname s : String) : String :=
  match engine dbname s with
  | .ok r =>
      jsonDumpsObj [("columns", pyStrListStr r.colnames),
                    ("rows", joinSep "," (r.rows.map pyStrTuple))]
  | .error _ => ""

/-- `exec_and_commit` (lines 248-268): connect to `dbname`, execute `s`,
then `conn.commit()`.  Any exception is logged and re-raised.  The first
component is the outcome delivered to the caller, the second records
whether `conn.commit()` was invoked. -/
def exec_and_commit (connect : String → Except PyError Unit)
    (engine : String → Except PyError Unit) (dbname s : String) :
    (Except PyError Unit) × Bool :=
  match connect dbname with
  | .error e => (.error e, false)
  | .ok _ =>
      match engine s with
      | .error e => (.error e, false)
      | .ok _ => (.ok (), true)

/-- `update_values` (lines 270-273): delegates to `exec_and_commit`. -/
def update_values (connect : String → Except PyError Unit)
    (engine : String → Except PyError Unit) (dbname s : String) :
    (Except PyError Unit) × Bool :=
  exec_and_commit connect engine dbname s

/-- `create_table` (lines 275-278): delegates to `exec_and_commit`. -/
def create_table (connect : String → Except PyError Unit)
    (engine : String → Except PyError Unit) (dbname s : String) :
    (Except PyError Unit) × Bool :=
  exec_and_commit connect engine dbname s

/-- `drop_table` (lines 280-283): delegates to `exec_and_commit`. -/
def drop_table (connect : String → Except PyError Unit)
    (engine : String → Except PyError Unit) (dbname s : String) :
    (Except PyError Unit) × Bool :=
  exec_and_commit connect engine dbname s

/-- `get_server_config` (lines 285-326): the guard is `if
self.aad_in_use:` — truthiness, exactly as in `V1`. -/
def get_server_config (st : V1.State) (mgmt : Except PyError String) :
    (Except PyError String) × Nat :=
  V1.get_server_config st mgmt

end V3

/-- Python `str.replace(old, new)` on character lists, fuelled so that it
is structurally recursive (the fuel is the length of the subject string,
which strictly bounds the recursion): scan left to right, replacing each
leftmost non-overlapping occurrence of `p` by `mask` and resuming after
it.  A nonempty `p` is assumed by every use (all call sites replace a
password the caller established to be nonempty); for empty `p` the scan
condition is simply never taken. -/
def pyReplaceFuel : Nat → List Char → List Char → List Char → List Char
  | 0, s, _, _ => s
  | Nat.succ n, s, p, mask =>
    match s with
    | [] => []
    | c :: s' =>
      if !p.isEmpty && p.isPrefixOf (c :: s') then
        mask ++ pyReplaceFuel n (s'.drop (p.length - 1)) p mask
      else
        c :: pyReplaceFuel n s' p mask

/-- Python `s.replace(p, mask)` for nonempty `p`. -/
def pyReplace (s p mask : String) : String :=
  ⟨pyReplaceFuel s.data.length s.data p.data mask.data⟩

/-- Whether `p` occurs as a contiguous substring of `l`. -/
def containsSub (p : List Char) : List Char → Bool
  | [] => p.isEmpty
  | c :: t => p.isPrefixOf (c :: t) || containsSub p t

namespace V2

/-- The masked diagnostic string of `get_databases_internal` (line 110):
`connection_string.replace(self.password, '*' * min(len(self.password), 8))`. -/
def safe_conn_str (connection_string password : String) : String :=
  pyReplace connection_string password ⟨List.replicate (min password.data.length 8) '*'⟩

/-- The masked diagnostic string actually produced before logging in
`get_databases_internal` (lines 106-111). -/
def databasesSafeConnStr (st : State) : String :=
  safe_conn_str (databasesConnStr st) st.password

end V2

namespace DbUtils

/-!
Embedding of the masking in `src/db_utils.py` (line 59) and
`src/main.py` (line 71), which are identical.
-/

/-- `conn_str.replace(password, '*' * len(password))`. -/
def safe_conn_str (conn_str password : String) : String :=
  pyReplace conn_str password ⟨List.replicate password.data.length '*'⟩

end DbUtils

/-!
Conninfo-string semantics, used to state which database a connection
targets: libpq keyword/value conninfo strings are space-separated
`key=value` entries, where a value may be wrapped in single quotes.  The
parser below covers exactly that fragment (values without embedded
spaces), which suffices for the strings the gateway builds.
-/

/-- Split a character list on spaces. -/
def splitSp : List Char → List (List Char)
  | [] => [[]]
  | c :: rest =>
    if c = ' ' then [] :: splitSp rest
    else
      match splitSp rest with
      | [] => [[c]]
      | f :: fs => (c :: f) :: fs

/-- Strip a single-quote wrapping from a conninfo value. -/
def stripSq (v : List Char) : List Char :=
  if 2 ≤ v.length ∧ v.head? = some '\'' ∧ v.getLast? = some '\'' then
    (v.drop 1).dropLast
  else v

/-- The value of field `key` in a `key=value` conninfo entry, when the
entry carries that key. -/
def fieldValue (key f : List Char) : Option (List Char) :=
  if (key ++ ['=']).isPrefixOf f then some (stripSq (f.drop (key.length + 1)))
  else none

/-- The database name a conninfo string targets: the value of its
`dbname` field.  When the string carries several `dbname` fields, libpq
keyword/value parsing lets the last occurrence win, so the last one is
taken. -/
def dbnameOf (s : String) : Option String :=
  (((splitSp s.data).filterMap (fieldValue "dbname".data)).getLast?).map fun l => ⟨l⟩

/-!
Concrete instances used by the closed theorems below.
-/

/-- Managed-identity environment: `AZURE_USE_AAD="True"` with all
required variables set. -/
def envAad : Env := ⟨some "True", some "h", some "u", some "pw", some "sub", some "rg"⟩

/-- Identity provider issuing a distinct token on every `get_token`
call: `tok0` on the first call, `tok1` afterwards. -/
def provFresh : TokenProvider := ⟨fun n => if n = 0 then "tok0" else "tok1"⟩

/-- The state `V1.init envAad provFresh` produces. -/
def stAad : V1.State :=
  ⟨some "True", "h", "u", some "sub", some "rg", some "h", true, "tok0", 1⟩

/-- Password-mode environment with `AZURE_USE_AAD` set to the literal
string `"False"`. -/
def envFalse : Env := ⟨some "False", some "h", some "u", some "pw", none, none⟩

/-- Identity provider that is never consulted in password mode. -/
def provIdle : TokenProvider := ⟨fun _ => "tok"⟩

/-- The state `V1.init envFalse provIdle` produces. -/
def stFalse : V1.State := ⟨some "False", "h", "u", none, none, none, false, "pw", 0⟩

/-- A `V2` password-mode state with `aad_in_use = "False"`. -/
def stFalseV2 : V2.State := ⟨"False", "h", "u", none, none, none, false, "pw", 0⟩

/-- Password-mode environment in which `PGHOST` and `PGPASSWORD` are
present but set to the empty string. -/
def envEmpties : Env := ⟨none, some "", some "u", some "", none, none⟩

/-- The state `V1.init envEmpties provIdle` produces. -/
def stEmpties : V1.State := ⟨none, "", "u", none, none, none, false, "", 0⟩

/-- A `V2` state whose password is the single character `*`. -/
def stStar : V2.State := ⟨"False", "h", "u", none, none, none, false, "*", 0⟩

/-- Password-mode environment whose `PGPASSWORD` value contains a space
and a `dbname=` assignment: `"x dbname=other"`. -/
def envInj : Env := ⟨none, some "h", some "u", some "x dbname=other", none, none⟩

/-- The state `V1.init envInj provIdle` produces: the spaced password is
accepted and stored unchanged. -/
def stInj : V1.State := ⟨none, "h", "u", none, none, none, false, "x dbname=other", 0⟩

/-- A two-row result set used to exercise the query path. -/
def resTwo : QueryResult := ⟨["a", "b"], [[.int 1, .str "x"], [.int 2, .str "y"]]⟩

/-- Engine oracle returning `resTwo` for every statement. -/
def engineTwo : String → String → Except PyError QueryResult :=
  fun _ _ => .ok resTwo

/-- Engine oracle agreeing with `engineTwo` except on the statement
`"other"`. -/
def engineTwoB : String → String → Except PyError QueryResult :=
  fun _ s => if s = "other" then .error (.databaseError "boom") else .ok resTwo

/-- Connection oracle that always succeeds. -/
def connOk : String → Except PyError Unit := fun _ => .ok ()

/-- Execution oracle that always succeeds. -/
def execOk : String → Except PyError Unit := fun _ => .ok ()

end DatevMcp

open DatevMcp

/-- C2: for a gateway constructed in password mode with
`AZURE_USE_AAD="False"`, the `AzurePostgreSQLMCP.py` and
`azure_postgres_mcp.py` variants do not fail with the not-supported
error: their guard `if self.aad_in_use:` tests Python truthiness, the
string `"False"` is truthy, and the call dies on the missing
`postgresql_client` attribute instead (still with zero control-plane
calls).  The `AzurePostgresMCP.py` variant's guard `!= "True"` produces
exactly the behavior the claim states, which is also what the other two
variants' own `else: raise NotImplementedError(...)` branch intends. -/
theorem c2_password_mode_guard_code_bug :
    V1.init envFalse provIdle = .ok stFalse ∧
    V1.get_server_config stFalse (.ok "cfg") =
      (.error (.attributeError "postgresql_client"), 0) ∧
    V1.get_server_config stFalse (.ok "cfg") ≠
      (.error (.notImplementedError "This tool is available only with Microsoft EntraID"), 0) ∧
    V3.get_server_config stFalse (.ok "cfg") =
      (.error (.attributeError "postgresql_client"), 0) ∧
    V2.get_server_config stFalseV2 (.ok "cfg") =
      (.error (.notImplementedError "This tool is available only with Microsoft EntraID"), 0) ∧
    V2.get_server_parameter stFalseV2 (.ok "cfg") =
      (.error (.notImplementedError "This tool is available only with Microsoft EntraID"), 0) := by
  decide

/-- C5 counterexample: the `psycopg.connect` calls of
`AzurePostgreSQLMCP.py` and `azure_postgres_mcp.py` pass no
`connect_timeout` at all, so not every connection open enforces a
bounded connect timeout. -/
theorem c5_no_connect_timeout_counterexample :
    (V1.databasesConnectCall stFalse).connect_timeout = none ∧
    (V1.schemasConnectCall stFalse "appdb").connect_timeout = none ∧
    (V3.databasesConnectCall stFalse).connect_timeout = none :=
  ⟨rfl, rfl, rfl⟩

/-- C5 amended: only the `AzurePostgresMCP.py` variant passes
`connect_timeout=15` on every tool connection; the
`AzurePostgreSQLMCP.py` and `azure_postgres_mcp.py` variants pass no
connect timeout. -/
theorem c5_connect_timeout_by_variant (st2 : V2.State) (st1 : V1.State) (db : String) :
    (V2.databasesConnectCall st2).connect_timeout = some 15 ∧
    (V2.schemasConnectCall st2 db).connect_timeout = some 15 ∧
    (V2.queryConnectCall st2 db).connect_timeout = some 15 ∧
    (V1.databasesConnectCall st1).connect_timeout = none ∧
    (V1.schemasConnectCall st1 db).connect_timeout = none ∧
    (V3.databasesConnectCall st1).connect_timeout = none :=
  ⟨rfl, rfl, rfl, rfl, rfl, rfl⟩

/-- C9: the mutating tools delegate to `exec_and_commit`, which invokes
`conn.commit()` exactly when the connection opened and the statement
executed successfully; on an execution failure the commit is never
invoked and the error is re-raised to the caller. -/
theorem c9_commit_iff_execution_ok (connect : String → Except PyError Unit)
    (engine : String → Except PyError Unit) (dbname s : String) :
    V3.update_values connect engine dbname s = V3.exec_and_commit connect engine dbname s ∧
    V3.create_table connect engine dbname s = V3.exec_and_commit connect engine dbname s ∧
    V3.drop_table connect engine dbname s = V3.exec_and_commit connect engine dbname s ∧
    ((V3.exec_and_commit connect engine dbname s).2 = true ↔
      connect dbname = .ok () ∧ engine s = .ok ()) ∧
    (∀ e : PyError, connect dbname = .ok () → engine s = .error e →
      V3.exec_and_commit connect engine dbname s = (.error e, false)) := by
  refine ⟨rfl, rfl, rfl, ?_, ?_⟩
  · cases hc : connect dbname with
    | error e => simp [V3.exec_and_commit, hc]
    | ok u =>
      cases u
      cases he : engine s with
      | error e => simp [V3.exec_and_commit, hc, he]
      | ok v => cases v; simp [V3.exec_and_commit, hc, he]
  · intro e hc he
    simp [V3.exec_and_commit, hc, he]

/-- C9 witness: with an always-succeeding connection and execution the
commit is invoked. -/
theorem c9_commit_iff_execution_ok_witness :
    (V3.exec_and_commit connOk execOk "db" "stmt").2 = true :=
  ((c9_commit_iff_execution_ok connOk execOk "db" "stmt").2.2.2.1).mpr ⟨rfl, rfl⟩

/-- C1 counterexample: against a provider that issues a distinct token
on every `get_token` call, construction in managed-identity mode stores
the token of call 0 and performs exactly one fetch; every later
connection string embeds that stored `tok0` and never the fresh token
`tok1` a per-connection fetch would have produced. -/
theorem c1_token_cached_counterexample :
    V1.init envAad provFresh = .ok stAad ∧
    stAad.tokenFetches = 1 ∧
    V1.get_connection_uri stAad "mydb" = "host=h dbname=mydb user=u password=tok0" ∧
    containsSub "tok0".data (V1.databasesConnStr stAad).data = true ∧
    containsSub "tok1".data (V1.databasesConnStr stAad).data = false ∧
    containsSub "tok1".data (V1.get_connection_uri stAad "mydb").data = false := by
  decide

/-- C1 amended: in managed-identity mode the credential is fetched once
at construction (`init` stores `self.password` after a single
`get_token` call) and every later connection reuses the stored token:
`get_connection_uri` is a pure function of the stored state and embeds
`tokenAt 0` for every database name, with no further provider call. -/
theorem c1_token_fetched_once_at_init (env : Env) (prov : TokenProvider) (st : V1.State)
    (haad : env.azureUseAad = some "True")
    (hinit : V1.init env prov = .ok st) :
    st.password = prov.tokenAt 0 ∧ st.tokenFetches = 1 ∧
    ∀ dbname, V1.get_connection_uri st dbname =
      "host=" ++ st.dbhost ++ " dbname=" ++ dbname ++ " user=" ++ st.dbuser ++
        " password=" ++ prov.tokenAt 0 := by
  cases hph : env.pghost with
  | none => simp [V1.init, get_environ_variable, hph] at hinit
  | some host =>
    cases hpu : env.pguser with
    | none => simp [V1.init, get_environ_variable, hph, hpu] at hinit
    | some u =>
      cases hsub : env.azureSubscriptionId with
      | none => simp [V1.init, get_environ_variable, haad, hph, hpu, hsub] at hinit
      | some sub =>
        cases hrg : env.azureResourceGroup with
        | none => simp [V1.init, get_environ_variable, haad, hph, hpu, hsub, hrg] at hinit
        | some rg =>
          simp [V1.init, get_environ_variable, haad, hph, hpu, hsub, hrg, V1.get_password] at hinit
          subst hinit
          exact ⟨rfl, rfl, fun dbname => rfl⟩

/-- C1 witness: the amended statement instantiated at `envAad` and the
fresh-token provider. -/
theorem c1_token_fetched_once_at_init_witness :
    stAad.password = provFresh.tokenAt 0 ∧ stAad.tokenFetches = 1 ∧
    V1.get_connection_uri stAad "mydb" =
      "host=" ++ stAad.dbhost ++ " dbname=" ++ "mydb" ++ " user=" ++ stAad.dbuser ++
        " password=" ++ provFresh.tokenAt 0 := by
  have h := c1_token_fetched_once_at_init envAad provFresh stAad rfl (by decide)
  exact ⟨h.1, h.2.1, h.2.2 "mydb"⟩

/-- C4 counterexample: with `PGHOST` and `PGPASSWORD` present but set to
the empty string in password mode, construction succeeds (the source
only rejects absent variables), contradicting the claim that it fails. -/
theorem c4_empty_values_accepted_counterexample :
    V1.init envEmpties provIdle = .ok stEmpties ∧
    stEmpties.dbhost = "" ∧ stEmpties.password = "" := by
  decide

/-- C4 amended: construction fails exactly on absent required variables:
in password mode a missing `PGPASSWORD` (or `PGHOST`) fails construction,
while variables that are present but empty are accepted unchanged —
except in the `AzurePostgresMCP.py` variant, which additionally rejects
an empty `PGPASSWORD`. -/
theorem c4_construction_requires_presence (env : Env) (prov : TokenProvider) :
    (env.azureUseAad ≠ some "True" → env.pgpassword = none →
      isOkE (V1.init env prov) = false) ∧
    (∀ h u p, env.azureUseAad ≠ some "True" → env.pghost = some h → env.pguser = some u →
      env.pgpassword = some p →
      V1.init env prov = .ok ⟨env.azureUseAad, h, pyQuote u, none, none, none, false, p, 0⟩) ∧
    (env.azureUseAad ≠ some "True" → env.pgpassword = some "" →
      isOkE (V2.init env prov) = false) ∧
    (env.pghost = none → isOkE (V1.init env prov) = false ∧ isOkE (V2.init env prov) = false) := by
  have hgetd : env.azureUseAad ≠ some "True" → env.azureUseAad.getD "False" ≠ "True" := by
    intro hne
    cases ha : env.azureUseAad with
    | none => simp
    | some a => simp; intro he; exact hne (by rw [ha, he])
  refine ⟨?_, ?_, ?_, ?_⟩
  · intro hne hpw
    cases hph : env.pghost with
    | none => simp [V1.init, get_environ_variable, hph, isOkE]
    | some h =>
      cases hpu : env.pguser with
      | none => simp [V1.init, get_environ_variable, hph, hpu, isOkE]
      | some u =>
        simp [V1.init, get_environ_variable, hph, hpu, hne, V1.get_password, hpw, isOkE,
          Except.map]
  · intro h u p hne hph hpu hpw
    simp [V1.init, get_environ_variable, hph, hpu, hne, V1.get_password, hpw, Except.map]
  · intro hne hpw
    have hg := hgetd hne
    cases hph : env.pghost with
    | none => simp [V2.init, get_environ_variable, hph, isOkE]
    | some h =>
      cases hpu : env.pguser with
      | none => simp [V2.init, get_environ_variable, hph, hpu, isOkE]
      | some u =>
        simp [V2.init, get_environ_variable, hph, hpu, hg, V2.get_password, hpw, isOkE,
          Bind.bind, Except.bind]
  · intro hph
    constructor
    · simp [V1.init, get_environ_variable, hph, isOkE]
    · simp [V2.init, get_environ_variable, hph, isOkE]

/-- C4 witness: the amended statement instantiated at `envEmpties` (all
variables present, two of them empty): the presence-only conjunct yields
a successful construction. -/
theorem c4_construction_requires_presence_witness :
    V1.init envEmpties provIdle =
      .ok ⟨envEmpties.azureUseAad, "", pyQuote "u", none, none, none, false, "", 0⟩ :=
  (c4_construction_requires_presence envEmpties provIdle).2.1 "" "u" ""
    (by decide) rfl rfl rfl

/-- C6 counterexample: in the `AzurePostgresMCP.py` variant, password
mode with `PGPASSWORD` configured as the empty string does not return
the configured value verbatim — it raises `ValueError`. -/
theorem c6_empty_password_not_verbatim_counterexample :
    V2.get_password "False" (some "") provIdle 0 =
      .error (.valueError "PGPASSWORD is empty") ∧
    V2.get_password "False" (some "") provIdle 0 ≠ .ok ("", 0) := by
  decide

/-- C6 amended: credential resolution selects managed identity exactly
when the auth-mode string equals the literal `"True"` (fetching the next
provider token); in every other case the configured `PGPASSWORD` is
returned verbatim — with the `AzurePostgresMCP.py` variant additionally
rejecting an empty configured password. -/
theorem c6_credential_mode_selection (aad1 : Option String) (aad2 : String)
    (pw : Option String) (p : String) (prov : TokenProvider) (n : Nat) :
    (aad1 = some "True" → V1.get_password aad1 pw prov n = .ok (prov.tokenAt n, n + 1)) ∧
    (aad1 ≠ some "True" → pw = some p → V1.get_password aad1 pw prov n = .ok (p, n)) ∧
    (aad2 = "True" → V2.get_password aad2 pw prov n = .ok (prov.tokenAt n, n + 1)) ∧
    (aad2 ≠ "True" → pw = some p → p ≠ "" → V2.get_password aad2 pw prov n = .ok (p, n)) := by
  refine ⟨?_, ?_, ?_, ?_⟩
  · intro h; simp [V1.get_password, h]
  · intro h hpw; simp [V1.get_password, h, get_environ_variable, hpw, Except.map]
  · intro h; simp [V2.get_password, h]
  · intro h hpw hp
    simp [V2.get_password, h, get_environ_variable, hpw, hp, Bind.bind, Except.bind]

/-- C3 counterexample: a failing `get_databases` in the
`AzurePostgreSQLMCP.py` variant returns the empty string — not a JSON
object (every serialized object starts with an opening brace, the empty
string starts with nothing) — while the `AzurePostgresMCP.py` variant
returns the structured envelope for the same failure. -/
theorem c3_empty_string_counterexample :
    V1.get_databases_internal (.error (.operationalError "connection refused")) = "" ∧
    ("" : String).startsWith "\x7b" = false ∧
    V2.get_databases_internal (.error (.operationalError "connection refused")) =
      jsonDumpsObj [("error", "Database connection failed: connection refused"),
                    ("type", "connection_error")] := by
  decide

/-- C3 amended: only the `AzurePostgresMCP.py` variant returns a
structured `{"error": ...}` envelope from failing read-path tools; the
`AzurePostgreSQLMCP.py` and `azure_postgres_mcp.py` variants return the
empty string on failure. -/
theorem c3_error_envelope_by_variant (e : PyError) (database dbname s : String) :
    (∃ m t, V2.get_databases_internal (.error e) = jsonDumpsObj [("error", m), ("type", t)]) ∧
    V2.get_schemas database (.error e) =
      jsonDumpsObj [("error", "Failed to get schemas for " ++ database ++ ": " ++ errMsg e)] ∧
    V2.query_data dbname (.error e) =
      jsonDumpsObj [("error", "Query failed on " ++ dbname ++ ": " ++ errMsg e)] ∧
    V1.get_databases_internal (.error e) = "" ∧
    V3.query_data (fun _ _ => .error e) dbname s = "" := by
  refine ⟨?_, rfl, rfl, rfl, rfl⟩
  cases e <;> exact ⟨_, _, rfl⟩

/-- C7: `query_data` consults the engine only at the caller's statement,
exactly as given (engines agreeing at `(dbname, s)` produce identical
tool output), and on success serializes the rows by joining their
`str(row)` forms in exactly the engine's order — in particular a
two-row result keeps the first row first. -/
theorem c7_statement_passthrough_and_row_order
    (e1 e2 : String → String → Except PyError QueryResult)
    (dbname s : String) (r : QueryResult)
    (h12 : e1 dbname s = e2 dbname s) (hr : e1 dbname s = .ok r) :
    V3.query_data e1 dbname s = V3.query_data e2 dbname s ∧
    V3.query_data e1 dbname s =
      jsonDumpsObj [("columns", pyStrListStr r.colnames),
                    ("rows", joinSep "," (r.rows.map pyStrTuple))] ∧
    ∀ ra rb, r.rows = [ra, rb] →
      joinSep "," (r.rows.map pyStrTuple) = pyStrTuple ra ++ "," ++ pyStrTuple rb := by
  refine ⟨?_, ?_, ?_⟩
  · simp [V3.query_data, h12]
  · simp [V3.query_data, hr]
  · intro ra rb hrows
    rw [hrows]
    rfl

/-- C7 witness: two engines agreeing on `("db", "SELECT 1")` but
differing elsewhere produce the same output, serialized with the
two-row result's rows in engine order. -/
theorem c7_statement_passthrough_and_row_order_witness :
    V3.query_data engineTwo "db" "SELECT 1" = V3.query_data engineTwoB "db" "SELECT 1" ∧
    V3.query_data engineTwo "db" "SELECT 1" =
      jsonDumpsObj [("columns", pyStrListStr resTwo.colnames),
                    ("rows", joinSep "," (resTwo.rows.map pyStrTuple))] ∧
    joinSep "," (resTwo.rows.map pyStrTuple) =
      pyStrTuple [.int 1, .str "x"] ++ "," ++ pyStrTuple [.int 2, .str "y"] := by
  have h := c7_statement_passthrough_and_row_order engineTwo engineTwoB "db" "SELECT 1" resTwo
    (by decide) rfl
  exact ⟨h.1, h.2.1, h.2.2 [.int 1, .str "x"] [.int 2, .str "y"] rfl⟩

/-- Splitting on spaces leaves a space-free list whole. -/
theorem splitSp_no_space (a : List Char) (h : ' ' ∉ a) : splitSp a = [a] := by
  induction a with
  | nil => rfl
  | cons c a' ih =>
    have hc : ¬ c = ' ' := fun he => h (he ▸ List.mem_cons_self c a')
    have ha' : ' ' ∉ a' := fun hm => h (List.mem_cons_of_mem _ hm)
    simp [splitSp, hc, ih ha']

/-- Splitting on spaces peels off a leading space-free field. -/
theorem splitSp_append (a b : List Char) (h : ' ' ∉ a) :
    splitSp (a ++ ' ' :: b) = a :: splitSp b := by
  induction a with
  | nil => simp [splitSp]
  | cons c a' ih =>
    have hc : ¬ c = ' ' := fun he => h (he ▸ List.mem_cons_self c a')
    have ha' : ' ' ∉ a' := fun hm => h (List.mem_cons_of_mem _ hm)
    simp [splitSp, hc, ih ha']

/-- The `host= user= dbname='postgres' password=` conninfo shape built by
every variant's `get_databases_internal` targets the database
`postgres`, whatever the host, user and password values are (values
without embedded spaces, as conninfo field semantics require). -/
theorem dbnameOf_std_conn (H U P : String)
    (hh : ' ' ∉ H.data) (hu : ' ' ∉ U.data) (hp : ' ' ∉ P.data) :
    dbnameOf ("host=" ++ H ++ " user=" ++ U ++ " dbname='postgres' password=" ++ P) =
      some "postgres" := by
  have hdata : ("host=" ++ H ++ " user=" ++ U ++ " dbname='postgres' password=" ++ P).data
      = ("host=".data ++ H.data) ++ ' ' :: (("user=".data ++ U.data) ++ ' ' ::
        ("dbname='postgres'".data ++ ' ' :: ("password=".data ++ P.data))) := by
    simp [String.data_append]
  have h1 : ' ' ∉ "host=".data ++ H.data := by
    intro hmem
    rcases List.mem_append.mp hmem with hl | hr
    · exact absurd hl (by decide)
    · exact hh hr
  have h2 : ' ' ∉ "user=".data ++ U.data := by
    intro hmem
    rcases List.mem_append.mp hmem with hl | hr
    · exact absurd hl (by decide)
    · exact hu hr
  have h3 : ' ' ∉ "dbname='postgres'".data := by decide
  have h4 : ' ' ∉ "password=".data ++ P.data := by
    intro hmem
    rcases List.mem_append.mp hmem with hl | hr
    · exact absurd hl (by decide)
    · exact hp hr
  have e1 : fieldValue "dbname".data ("host=".data ++ H.data) = none := rfl
  have e2 : fieldValue "dbname".data ("user=".data ++ U.data) = none := rfl
  have e3 : fieldValue "dbname".data "dbname='postgres'".data = some "postgres".data := by
    decide
  have e4 : fieldValue "dbname".data ("password=".data ++ P.data) = none := rfl
  unfold dbnameOf
  rw [hdata, splitSp_append _ _ h1, splitSp_append _ _ h2, splitSp_append _ _ h3,
    splitSp_no_space _ h4]
  simp only [List.filterMap_cons, e1, e2, e3, e4, List.filterMap_nil]
  rfl

/-- C10 counterexample: the claim's "regardless of any environment
setting" fails.  With `PGPASSWORD="x dbname=other"` construction
succeeds (the password is stored unchanged), the `get_databases`
conninfo carries two `dbname` fields — the literal `'postgres'` and the
injected `other` — and under libpq's last-occurrence-wins keyword/value
parsing the connection targets `other`, not `postgres`. -/
theorem c10_injected_dbname_counterexample :
    V1.init envInj provIdle = .ok stInj ∧
    V1.databasesConnStr stInj = "host=h user=u dbname='postgres' password=x dbname=other" ∧
    (splitSp (V1.databasesConnStr stInj).data).filterMap (fieldValue "dbname".data) =
      ["postgres".data, "other".data] ∧
    dbnameOf (V1.databasesConnStr stInj) = some "other" ∧
    dbnameOf (V1.databasesConnStr stInj) ≠ some "postgres" := by
  decide

/-- C10 amended: in all three variants, the `get_databases` conninfo
(also used by the databases resource, which calls the same
`get_databases_internal`) always carries the literal `dbname='postgres'`
field, and for every gateway state whose host, user and password values
contain no space — so no further conninfo fields can be injected — the
catalog connection targets the fixed maintenance database `postgres`
under libpq's last-occurrence-wins field semantics. -/
theorem c10_databases_targets_postgres (st1 : V1.State) (st2 : V2.State) (st3 : V1.State)
    (h1h : ' ' ∉ st1.dbhost.data) (h1u : ' ' ∉ st1.dbuser.data) (h1p : ' ' ∉ st1.password.data)
    (h2h : ' ' ∉ st2.dbhost.data) (h2u : ' ' ∉ st2.dbuser.data) (h2p : ' ' ∉ st2.password.data)
    (h3h : ' ' ∉ st3.dbhost.data) (h3u : ' ' ∉ st3.dbuser.data) (h3p : ' ' ∉ st3.password.data) :
    dbnameOf (V1.databasesConnStr st1) = some "postgres" ∧
    dbnameOf (V2.databasesConnStr st2) = some "postgres" ∧
    dbnameOf (V3.databasesConnStr st3) = some "postgres" :=
  ⟨dbnameOf_std_conn _ _ _ h1h h1u h1p, dbnameOf_std_conn _ _ _ h2h h2u h2p,
   dbnameOf_std_conn _ _ _ h3h h3u h3p⟩

/-- C10 witness: the password-mode states of the concrete environments
target `postgres`. -/
theorem c10_databases_targets_postgres_witness :
    dbnameOf (V1.databasesConnStr stFalse) = some "postgres" ∧
    dbnameOf (V2.databasesConnStr stFalseV2) = some "postgres" ∧
    dbnameOf (V3.databasesConnStr stFalse) = some "postgres" :=
  c10_databases_targets_postgres stFalse stFalseV2 stFalse
    (by decide) (by decide) (by decide) (by decide) (by decide) (by decide)
    (by decide) (by decide) (by decide)

/-- Sliding a block of mask characters off the front: a pattern that is
nonempty and asterisk-free cannot begin inside a run of asterisks, so
occurrence checking passes over the run. -/
theorem containsSub_star_append (p : List Char) (hp : p ≠ []) (hstar : '*' ∉ p)
    (k : Nat) (r : List Char) :
    containsSub p (List.replicate k '*' ++ r) = containsSub p r := by
  induction k with
  | zero => simp
  | succ m ih =>
    rw [List.replicate_succ, List.cons_append]
    have hpre : p.isPrefixOf ('*' :: (List.replicate m '*' ++ r)) = false := by
      cases p with
      | nil => exact absurd rfl hp
      | cons a as =>
        have ha : a ≠ '*' := by intro he; exact hstar (he ▸ List.mem_cons_self a as)
        simp [List.isPrefixOf, ha]
    simp [containsSub, hpre, ih]

/-- An asterisk-free string that is a prefix of the replacement's output
was already a prefix of the input: the output either starts with the
(all-asterisk) mask or reproduces the input's head character. -/
theorem pyReplaceFuel_isPrefixOf (p mask : List Char)
    (hm : mask ≠ []) (hmask : ∀ c ∈ mask, c = '*') :
    ∀ (n : Nat) (s q : List Char), (∀ c ∈ q, c ≠ '*') →
      q.isPrefixOf (pyReplaceFuel n s p mask) = true → q.isPrefixOf s = true := by
  intro n
  induction n with
  | zero => intro s q hq hpre; simpa [pyReplaceFuel] using hpre
  | succ m ih =>
    intro s q hq hpre
    cases s with
    | nil => simpa [pyReplaceFuel] using hpre
    | cons c s' =>
      by_cases hb : (!p.isEmpty && p.isPrefixOf (c :: s')) = true
      · rw [show pyReplaceFuel (m+1) (c::s') p mask =
            mask ++ pyReplaceFuel m (s'.drop (p.length - 1)) p mask by
          simp [pyReplaceFuel, hb]] at hpre
        cases q with
        | nil => simp [List.isPrefixOf]
        | cons d q' =>
          cases mask with
          | nil => exact absurd rfl hm
          | cons mc mr =>
            rw [List.cons_append] at hpre
            simp only [List.isPrefixOf, Bool.and_eq_true, beq_iff_eq] at hpre
            have h1 : mc = '*' := hmask mc (List.mem_cons_self mc mr)
            have h2 : d ≠ '*' := hq d (List.mem_cons_self d q')
            exact absurd (hpre.1.trans h1) h2
      · rw [show pyReplaceFuel (m+1) (c::s') p mask = c :: pyReplaceFuel m s' p mask by
          simp [pyReplaceFuel, hb]] at hpre
        cases q with
        | nil => simp [List.isPrefixOf]
        | cons d q' =>
          simp only [List.isPrefixOf, Bool.and_eq_true, beq_iff_eq] at hpre ⊢
          exact ⟨hpre.1, ih s' q' (fun c hc => hq c (List.mem_cons_of_mem d hc)) hpre.2⟩

/-- Replacing every occurrence of a nonempty asterisk-free pattern by a
nonempty all-asterisk mask leaves no occurrence of the pattern in the
output: an occurrence inside the output would either overlap a mask run
(impossible, the pattern is asterisk-free) or lie in untouched input
(impossible, the scan replaced every occurrence it met). -/
theorem containsSub_pyReplaceFuel_false (p : List Char) (hp : p ≠ []) (hstar : '*' ∉ p)
    (k : Nat) (hk : k ≠ 0) :
    ∀ (n : Nat) (s : List Char), s.length ≤ n →
      containsSub p (pyReplaceFuel n s p (List.replicate k '*')) = false := by
  have hm : (List.replicate k '*' : List Char) ≠ [] := by
    cases k with
    | zero => exact absurd rfl hk
    | succ j => simp
  have hmask : ∀ c ∈ (List.replicate k '*' : List Char), c = '*' :=
    fun c hc => List.eq_of_mem_replicate hc
  intro n
  induction n with
  | zero =>
    intro s hlen
    have hs : s = [] := List.eq_nil_of_length_eq_zero (Nat.le_zero.mp hlen)
    subst hs
    cases p with
    | nil => exact absurd rfl hp
    | cons a as => rfl
  | succ m ih =>
    intro s hlen
    cases s with
    | nil =>
      cases p with
      | nil => exact absurd rfl hp
      | cons a as => rfl
    | cons c s' =>
      by_cases hb : (!p.isEmpty && p.isPrefixOf (c :: s')) = true
      · rw [show pyReplaceFuel (m+1) (c::s') p (List.replicate k '*') =
            List.replicate k '*' ++
              pyReplaceFuel m (s'.drop (p.length - 1)) p (List.replicate k '*') by
          simp [pyReplaceFuel, hb]]
        rw [containsSub_star_append p hp hstar k _]
        apply ih
        have hd := List.length_drop (p.length - 1) s'
        simp at hlen
        omega
      · have hpe : p.isEmpty = false := by
          cases p with
          | nil => exact absurd rfl hp
          | cons a as => rfl
        have hpf : p.isPrefixOf (c :: s') = false := by
          cases hx : p.isPrefixOf (c :: s') with
          | false => rfl
          | true => exact absurd (by simp [hx, hpe]) hb
        have heq : pyReplaceFuel (m+1) (c::s') p (List.replicate k '*') =
            c :: pyReplaceFuel m s' p (List.replicate k '*') := by
          simp [pyReplaceFuel, hb]
        rw [heq]
        have hrec : containsSub p (pyReplaceFuel m s' p (List.replicate k '*')) = false := by
          apply ih
          simp at hlen
          omega
        have hnotpre : p.isPrefixOf (c :: pyReplaceFuel m s' p (List.replicate k '*')) = false := by
          cases hx : p.isPrefixOf (c :: pyReplaceFuel m s' p (List.replicate k '*')) with
          | false => rfl
          | true =>
            exfalso
            have hps := pyReplaceFuel_isPrefixOf p (List.replicate k '*') hm hmask
              (m+1) (c::s') p (fun ch hc he => hstar (he ▸ hc)) (by rw [heq]; exact hx)
            rw [hps] at hpf
            exact absurd hpf (by simp)
        simp [containsSub, hnotpre, hrec]

/-- C8 counterexample: with the password `"*"`, the masking
`replace(password, '*' * min(len, 8))` is the identity on the diagnostic
string, which therefore still contains the password in cleartext — in
both the `AzurePostgresMCP.py` and the `db_utils.py`/`main.py` masking
code. -/
theorem c8_star_password_counterexample :
    stStar.password = "*" ∧
    V2.databasesSafeConnStr stStar = V2.databasesConnStr stStar ∧
    containsSub stStar.password.data (V2.databasesSafeConnStr stStar).data = true ∧
    containsSub stStar.password.data
      (DbUtils.safe_conn_str (V2.databasesConnStr stStar) stStar.password).data = true := by
  decide

/-- C8 amended: for every non-empty password containing no `*`
character, the masked diagnostic string contains no occurrence of the
password, under both maskings (`'*' * min(len(password), 8)` in
`AzurePostgresMCP.py` and `'*' * len(password)` in
`db_utils.py`/`main.py`). -/
theorem c8_masked_string_hides_password (connStr pwd : String)
    (hne : pwd ≠ "") (hstar : '*' ∉ pwd.data) :
    containsSub pwd.data (V2.safe_conn_str connStr pwd).data = false ∧
    containsSub pwd.data (DbUtils.safe_conn_str connStr pwd).data = false := by
  have hp : pwd.data ≠ [] := by
    intro h
    exact hne (String.ext (by rw [h]))
  have hlen : pwd.data.length ≠ 0 := by
    intro h
    exact hp (List.eq_nil_of_length_eq_zero h)
  constructor
  · exact containsSub_pyReplaceFuel_false pwd.data hp hstar (min pwd.data.length 8)
      (by omega) connStr.data.length connStr.data le_rfl
  · exact containsSub_pyReplaceFuel_false pwd.data hp hstar pwd.data.length hlen
      connStr.data.length connStr.data le_rfl

/-- C8 witness: the password `"pw"` does not survive masking of the
`get_databases` connection string. -/
theorem c8_masked_string_hides_password_witness :
    containsSub "pw".data (V2.safe_conn_str (V2.databasesConnStr stFalseV2) "pw").data = false ∧
    containsSub "pw".data (DbUtils.safe_conn_str (V2.databasesConnStr stFalseV2) "pw").data = false :=
  c8_masked_string_hides_password (V2.databasesConnStr stFalseV2) "pw" (by decide) (by decide)

/-- C6 witness: both modes instantiated concretely — `"True"` fetches
the provider token, `"False"` (and `None`) returns the configured
password verbatim. -/
theorem c6_credential_mode_selection_witness :
    V1.get_password (some "True") (some "pw") provFresh 0 = .ok (provFresh.tokenAt 0, 1) ∧
    V1.get_password (some "False") (some "pw") provFresh 0 = .ok ("pw", 0) ∧
    V2.get_password "True" (some "pw") provFresh 0 = .ok (provFresh.tokenAt 0, 1) ∧
    V2.get_password "False" (some "pw") provFresh 0 = .ok ("pw", 0) := by
  refine ⟨(c6_credential_mode_selection (some "True") "False" (some "pw") "pw" provFresh 0).1 rfl,
    (c6_credential_mode_selection (some "False") "False" (some "pw") "pw" provFresh 0).2.1
      (by decide) rfl,
    (c6_credential_mode_selection (some "True") "True" (some "pw") "pw" provFresh 0).2.2.1 rfl,
    (c6_credential_mode_selection (some "True") "False" (some "pw") "pw" provFresh 0).2.2.2
      (by decide) rfl (by decide)⟩
